import Mathlib

/-!
Shallow embedding of `src/ChristmasLED.ino` (Arduino firmware for a WS2812b
LED string): the tick counter, touch-gesture classification, mode-selection
state machine, the per-mode animation framework (`modeSetup` plus the
`ledModeX` step functions) and the main `loop` body.

Machine integers are modelled as `Nat` with explicit truncation where the
C storage width matters: `iTimer`/`iFadeTime`/`iLightValue` are
`unsigned short` (mod 2^16), `iPressTime`/`iReleaseTime`/`iUptime` are
`unsigned long` (mod 2^32), the colour channels and `iCycle` are `byte`
(mod 2^8).  `iLiteMode` is a C `short`; it is modelled as `Int` (the
program only ever assigns it -1, 0..10, a flash-restored value, or an
increment of those, all far from the 16-bit limits).

External effects (GPIO writes, `FastLED.show()`, flash reads/writes,
serial prints) have no modelled state; `analogRead`/`digitalRead`/`millis`
are inputs to a scheduler pass, and `random(lo, hi)` is an oracle
`Nat → Nat` supplied with each pass (one value per pixel index).
-/

namespace ChristmasLED

/-- `#define cLedCount 16` — number of LEDs in the string. -/
def cLedCount : Nat := 16

/-- `#define cLightSwitch 255` — ambient light value at or above which the
device shows the off pattern. -/
def cLightSwitch : Nat := 255

/-- `#define iLiteMax 60` — maximum RGB brightness per pixel. -/
def iLiteMax : Nat := 60

/-- `#define iTotalLiteModes 9` — number of animation modes (excludes
"Off" and "Demo"). -/
def iTotalLiteModes : Int := 9

/-- `#define iPollingInterval 2` — ms between sensor polls. -/
def iPollingInterval : Nat := 2

/-- `#define iShortPressTime 1500` — max ms of a "short press". -/
def iShortPressTime : Nat := 1500

/-- `#define iLongPressTime 3000` — min ms of a "long press". -/
def iLongPressTime : Nat := 3000

/-- `#define iDemoPressTime 7000` — min ms of a press meant to enter demo
mode.  Note: this constant is defined in the source but never used;
`touchReleaseEvent` compares against `iDemoModeTime` instead. -/
def iDemoPressTime : Nat := 7000

/-- `#define iDemoModeTime 10000` — ms each mode runs for in demo mode. -/
def iDemoModeTime : Nat := 10000

/-- Modulus of an 8-bit `byte`. -/
def byteMod : Nat := 256

/-- Modulus of a 16-bit `unsigned short`. -/
def ushortMod : Nat := 65536

/-- Modulus of a 32-bit `unsigned long`. -/
def ulongMod : Nat := 4294967296

/-- The global mutable variables of the sketch.  `leds` is the FastLED
frame buffer, a list of `cLedCount` RGB triples.  `nSetups` is a ghost
instrumentation counter (not in the source): it is incremented exactly
when `modeSetup` runs and influences nothing else; it lets theorems count
invocations of the mode-setup operation. -/
structure St where
  iLiteMode : Int
  bModeSetup : Bool
  iPressTime : Nat
  iReleaseTime : Nat
  iUptime : Nat
  iFadeTime : Nat
  iLightValue : Nat
  iTimer : Nat
  iCycle : Nat
  iRedMax : Nat
  iGreenMax : Nat
  iBlueMax : Nat
  iRed : Nat
  iGreen : Nat
  iBlue : Nat
  bCurrentTouchValue : Bool
  bLastTouchValue : Bool
  leds : List (Nat × Nat × Nat)
  nSetups : Nat
deriving Repr, DecidableEq

/-- The environment readings consumed by one pass of `loop()`:
the `millis()` value, the `analogRead` of the light sensor, the
`digitalRead` of the touch sensor, and an oracle for `random(lo, hi)`
(indexed by pixel, since the random-colour modes draw once per pixel). -/
structure Input where
  millis : Nat
  light : Nat
  touch : Bool
  rand : Nat → Nat

/-- FastLED `scale8(i, scale)` with `FASTLED_SCALE8_FIXED`:
`(i * (1 + scale)) >> 8`. -/
def scale8 (i scale : Nat) : Nat := i * (1 + scale) / 256

/-- FastLED `triwave8`: fold the byte input into 0..127 and double it. -/
def triwave8 (x : Nat) : Nat :=
  let y := x % byteMod
  if 128 ≤ y then 2 * (255 - y) % byteMod else 2 * y % byteMod

/-- FastLED `ease8InOutCubic`: cubic ease of a byte, saturating when bit 8
of the intermediate `3*ii - 2*iii` is set. -/
def ease8InOutCubic (i : Nat) : Nat :=
  let ii := scale8 i i
  let iii := scale8 ii i
  let r1 := 3 * ii - 2 * iii
  if r1 / 256 % 2 = 1 then 255 else r1 % byteMod

/-- FastLED `cubicwave8`: the smooth periodic waveform used by the fading
modes (byte domain and range). -/
def cubicwave8 (x : Nat) : Nat := ease8InOutCubic (triwave8 (x % byteMod))

/-- Arduino `map(x, 0, 255, 0, outMax)` = `x * outMax / 255` in long
arithmetic. -/
def amap (x outMax : Nat) : Nat := x * outMax / 255

/-- Lines 180–186 of `loop()`:
`if (iUptime < millis()) { iUptime = millis(); iTimer++; }`.
`iTimer` is an `unsigned short`, so the increment wraps mod 2^16. -/
def tickUpdate (millisVal : Nat) (s : St) : St :=
  if s.iUptime < millisVal then
    { s with iUptime := millisVal % ulongMod,
             iTimer := (s.iTimer + 1) % ushortMod }
  else s

/-- `touchReleaseEvent()` (polling version, lines 300–323).  The hold time
is the `unsigned long` difference `iReleaseTime - iPressTime`; the
classification compares it against `iDemoModeTime`, `iLongPressTime` and
`iShortPressTime` in that order.  `debugMode` is `NULL` (false), so the
short-press wrap goes to 0, not -1. -/
def touchReleaseEvent (s : St) : St :=
  let iReleaseTime := s.iTimer
  let iHoldTime := (iReleaseTime + ulongMod - s.iPressTime % ulongMod) % ulongMod
  if iHoldTime > iDemoModeTime then
    { s with iReleaseTime := iReleaseTime, iLiteMode := 10 }
  else if iHoldTime > iLongPressTime then
    { s with iReleaseTime := iReleaseTime, iLiteMode := 0 }
  else if iHoldTime < iShortPressTime then
    { s with iReleaseTime := iReleaseTime,
             iLiteMode :=
               if s.iLiteMode + 1 > iTotalLiteModes then 0 else s.iLiteMode + 1 }
  else
    { s with iReleaseTime := iReleaseTime }

/-- `modeSetup(redMax, greenMax, blueMax, red, green, blue, fadeTime)`
(lines 362–372).  Note the source order: `iTimer = iFadeTime;` runs
*before* `iFadeTime = fadeTime;`, so the tick counter is overwritten with
the previous mode's fade time.  The ghost counter `nSetups` records the
invocation. -/
def modeSetup (redMax greenMax blueMax red green blue fadeTime : Nat)
    (s : St) : St :=
  { s with iRedMax := redMax % byteMod,
           iGreenMax := greenMax % byteMod,
           iBlueMax := blueMax % byteMod,
           iRed := red % byteMod,
           iGreen := green % byteMod,
           iBlue := blue % byteMod,
           iTimer := s.iFadeTime,
           iFadeTime := fadeTime % ushortMod,
           bModeSetup := true,
           nSetups := s.nSetups + 1 }

/-- An all-zero RGB frame of `cLedCount` pixels. -/
def zeroFrame : List (Nat × Nat × Nat) := List.replicate cLedCount (0, 0, 0)

/-- `ledTest(speed)` (lines 375–390): one-at-a-time LED walk.  It sets
`bModeSetup` directly (without calling `modeSetup`). -/
def ledTest (speed : Nat) (s : St) : St :=
  let s := if s.bModeSetup ≠ true then
    { s with leds := zeroFrame, iCycle := 0, bModeSetup := true }
  else s
  if s.iTimer % speed = 0 then
    let s := { s with leds := zeroFrame.set s.iCycle (20, 20, 20) }
    let c := (s.iCycle + 1) % byteMod
    { s with iCycle := if cLedCount ≤ c then 0 else c }
  else s

/-- `ledMode0()` (lines 397–410): the off pattern.  Zeroes the frame only
on its cadence boundary. -/
def ledMode0 (s : St) : St :=
  let s := if s.bModeSetup ≠ true then
    let s := modeSetup 0 0 0 0 0 0 10 s
    { s with iCycle := 0 }
  else s
  if s.iTimer % s.iFadeTime = 0 then { s with leds := zeroFrame } else s

/-- `ledMode1()` (lines 413–427): comfy yellow, static. -/
def ledMode1 (s : St) : St :=
  let s := if s.bModeSetup ≠ true then
    modeSetup (iLiteMax / 2) (iLiteMax / 4) 0 255 127 0 50 s
  else s
  if s.iTimer % s.iFadeTime = 0 then
    let px := (amap s.iRed s.iRedMax, amap s.iGreen s.iGreenMax, amap s.iBlue s.iBlueMax)
    { s with leds := List.replicate cLedCount px }
  else s

/-- `ledMode2()` (lines 433–449): comfy yellow flicker.  Each pixel draws
`random(5, iRedMax)` (modelled by the oracle `rand`), assigns it to the
byte `iRed`, and writes `(iRed, iRed/2, 0)`; the channel variables keep the
last pixel's draw. -/
def ledMode2 (rand : Nat → Nat) (s : St) : St :=
  let s := if s.bModeSetup ≠ true then
    modeSetup (iLiteMax / 2) (iLiteMax / 4) 0 255 127 0 10 s
  else s
  if s.iTimer % s.iFadeTime = 0 then
    let frame := (List.range cLedCount).map
      (fun i => (rand i % byteMod, rand i % byteMod / 2, 0))
    { s with leds := frame,
             iRed := rand (cLedCount - 1) % byteMod,
             iGreen := rand (cLedCount - 1) % byteMod / 2,
             iBlue := 0 }
  else s

/-- `ledMode3()` (lines 454–472): comfy yellow randomize; as `ledMode2`
but with a 2000 ms cadence and `random(0, iRedMax)`. -/
def ledMode3 (rand : Nat → Nat) (s : St) : St :=
  let s := if s.bModeSetup ≠ true then
    modeSetup (iLiteMax / 2) (iLiteMax / 4) 0 255 127 0 2000 s
  else s
  if s.iTimer % s.iFadeTime = 0 then
    let frame := (List.range cLedCount).map
      (fun i => (rand i % byteMod, rand i % byteMod / 2, 0))
    { s with leds := frame,
             iRed := rand (cLedCount - 1) % byteMod,
             iGreen := rand (cLedCount - 1) % byteMod / 2,
             iBlue := 0 }
  else s

/-- A three-phase chasing frame: pixel `i` gets the waveform evaluated at
phase offset 0 / 85 / 170 according to `i % 3` (the body of `ledMode4`'s
pixel loop). -/
def chaseFrame (r g b rMax gMax bMax : Nat) : List (Nat × Nat × Nat) :=
  (List.range cLedCount).map fun i =>
    let off := if i % 3 = 0 then 0 else if i % 3 = 1 then 85 else 170
    (amap (cubicwave8 (r + off)) rMax,
     amap (cubicwave8 (g + off)) gMax,
     amap (cubicwave8 (b + off)) bMax)

/-- `ledMode4()` (lines 476–526): red/green 3-pixel chase.  Writes a
chasing frame on the cadence boundary, then increments the byte phases. -/
def ledMode4 (s : St) : St :=
  let s := if s.bModeSetup ≠ true then
    modeSetup (iLiteMax / 2) (iLiteMax / 2) 0 127 0 0 10 s
  else s
  if s.iTimer % s.iFadeTime = 0 then
    { s with leds := chaseFrame s.iRed s.iGreen s.iBlue s.iRedMax s.iGreenMax s.iBlueMax,
             iRed := (s.iRed + 1) % byteMod,
             iGreen := (s.iGreen + 1) % byteMod,
             iBlue := (s.iBlue + 1) % byteMod }
  else s

/-- A three-way channel-rotated fading frame: all pixels use the same
waveform values, rotated per `i % 3` (the body of `ledMode5`'s loop). -/
def rotateFrame (r g b rMax gMax bMax : Nat) : List (Nat × Nat × Nat) :=
  let rT := amap (cubicwave8 r) rMax
  let gT := amap (cubicwave8 g) gMax
  let bT := amap (cubicwave8 b) bMax
  (List.range cLedCount).map fun i =>
    if i % 3 = 0 then (rT, gT, bT)
    else if i % 3 = 1 then (gT, bT, rT)
    else (bT, rT, gT)

/-- `ledMode5()` (lines 531–561): Christmas 3-pixel fading. -/
def ledMode5 (s : St) : St :=
  let s := if s.bModeSetup ≠ true then
    modeSetup (iLiteMax / 2) (iLiteMax / 2) 0 127 0 0 10 s
  else s
  if s.iTimer % s.iFadeTime = 0 then
    { s with leds := rotateFrame s.iRed s.iGreen s.iBlue s.iRedMax s.iGreenMax s.iBlueMax,
             iRed := (s.iRed + 1) % byteMod,
             iGreen := (s.iGreen + 1) % byteMod,
             iBlue := (s.iBlue + 1) % byteMod }
  else s

/-- `ledMode6()` (lines 564–588): rainbow, all pixels the same colour. -/
def ledMode6 (s : St) : St :=
  let s := if s.bModeSetup ≠ true then
    modeSetup (iLiteMax / 3) (iLiteMax / 3) (iLiteMax / 3) 255 127 0 10 s
  else s
  if s.iTimer % s.iFadeTime = 0 then
    let px := (amap (cubicwave8 s.iRed) s.iRedMax,
               amap (cubicwave8 s.iGreen) s.iGreenMax,
               amap (cubicwave8 s.iBlue) s.iBlueMax)
    { s with leds := List.replicate cLedCount px,
             iRed := (s.iRed + 1) % byteMod,
             iGreen := (s.iGreen + 1) % byteMod,
             iBlue := (s.iBlue + 1) % byteMod }
  else s

/-- `ledMode7()` (lines 591–621): rainbow, 3-pixel rotation. -/
def ledMode7 (s : St) : St :=
  let s := if s.bModeSetup ≠ true then
    modeSetup (iLiteMax / 3) (iLiteMax / 3) (iLiteMax / 3) 127 63 0 10 s
  else s
  if s.iTimer % s.iFadeTime = 0 then
    { s with leds := rotateFrame s.iRed s.iGreen s.iBlue s.iRedMax s.iGreenMax s.iBlueMax,
             iRed := (s.iRed + 1) % byteMod,
             iGreen := (s.iGreen + 1) % byteMod,
             iBlue := (s.iBlue + 1) % byteMod }
  else s

/-- A three-phase chase on red/green with blue held at its ceiling (the
pixel loop shared by `ledMode8` and `ledMode9`). -/
def blueChaseFrame (r g rMax gMax bMax : Nat) : List (Nat × Nat × Nat) :=
  (List.range cLedCount).map fun i =>
    let off := if i % 3 = 0 then 0 else if i % 3 = 1 then 85 else 170
    (amap (cubicwave8 (r + off)) rMax, amap (cubicwave8 (g + off)) gMax, bMax)

/-- `ledMode8()` (lines 624–661): blue/white 3-pixel chase. -/
def ledMode8 (s : St) : St :=
  let s := if s.bModeSetup ≠ true then
    modeSetup (iLiteMax / 3) (iLiteMax / 3) (iLiteMax / 3) 0 0 255 10 s
  else s
  if s.iTimer % s.iFadeTime = 0 then
    { s with leds := blueChaseFrame s.iRed s.iGreen s.iRedMax s.iGreenMax s.iBlueMax,
             iRed := (s.iRed + 1) % byteMod,
             iGreen := (s.iGreen + 1) % byteMod,
             iBlue := (s.iBlue + 1) % byteMod }
  else s

/-- `ledMode9()` (lines 664–701): blue/purple 3-pixel chase. -/
def ledMode9 (s : St) : St :=
  let s := if s.bModeSetup ≠ true then
    modeSetup (iLiteMax / 3) (iLiteMax / 15) (iLiteMax / 3) 0 0 255 10 s
  else s
  if s.iTimer % s.iFadeTime = 0 then
    { s with leds := blueChaseFrame s.iRed s.iGreen s.iRedMax s.iGreenMax s.iBlueMax,
             iRed := (s.iRed + 1) % byteMod,
             iGreen := (s.iGreen + 1) % byteMod,
             iBlue := (s.iBlue + 1) % byteMod }
  else s

/-- The defensive clamp at the top of `ledMode10` (line 707):
`if (iCycle < 1 || iCycle > 9) { iCycle = 1; }`. -/
def demoClamp (c : Nat) : Nat := if c < 1 ∨ 9 < c then 1 else c

/-- The sub-mode dispatch inside `ledMode10` (`switch (iCycle)`). -/
def demoDispatch (c : Nat) (rand : Nat → Nat) (s : St) : St :=
  if c = 1 then ledMode1 s
  else if c = 2 then ledMode2 rand s
  else if c = 3 then ledMode3 rand s
  else if c = 4 then ledMode4 s
  else if c = 5 then ledMode5 s
  else if c = 6 then ledMode6 s
  else if c = 7 then ledMode7 s
  else if c = 8 then ledMode8 s
  else if c = 9 then ledMode9 s
  else s

/-- `ledMode10()` (lines 704–746): demo mode.  Clamps `iCycle` into 1..9,
delegates to that sub-mode, then — when `iTimer % iDemoModeTime == 0` and
`iTimer != 0` — advances `iCycle` (a byte) and clears `bModeSetup`. -/
def ledMode10 (rand : Nat → Nat) (s : St) : St :=
  let s := { s with iCycle := demoClamp s.iCycle }
  let s := demoDispatch s.iCycle rand s
  if s.iTimer % iDemoModeTime = 0 ∧ s.iTimer ≠ 0 then
    { s with iCycle := (s.iCycle + 1) % byteMod, bModeSetup := false }
  else s

/-- The `switch (iLiteMode)` dispatch in `loop()` (lines 214–257).
Cases -3 and -2 have empty bodies; any other unlisted value falls through
the switch, so both are the identity. -/
def runMode (m : Int) (rand : Nat → Nat) (s : St) : St :=
  if m = -1 then ledTest 1000 s
  else if m = 0 then ledMode0 s
  else if m = 1 then ledMode1 s
  else if m = 2 then ledMode2 rand s
  else if m = 3 then ledMode3 rand s
  else if m = 4 then ledMode4 s
  else if m = 5 then ledMode5 s
  else if m = 6 then ledMode6 s
  else if m = 7 then ledMode7 s
  else if m = 8 then ledMode8 s
  else if m = 9 then ledMode9 s
  else if m = 10 then ledMode10 rand s
  else s

/-- Lines 191–205 of `loop()`: every `iPollingInterval` ticks, run
`pollSensors()` (store the light reading into the `unsigned short`
`iLightValue` and the touch reading into `bCurrentTouchValue`) and then
the onPress / onRelease edge handling.  The onRelease branch calls
`touchReleaseEvent()` and clears `bModeSetup`. -/
def pollPhase (inp : Input) (s : St) : St :=
  if s.iTimer % iPollingInterval = 0 then
    let s := { s with iLightValue := inp.light % ushortMod,
                      bCurrentTouchValue := inp.touch }
    if s.bLastTouchValue = false ∧ s.bCurrentTouchValue = true then
      { s with iPressTime := s.iTimer, bLastTouchValue := s.bCurrentTouchValue }
    else if s.bLastTouchValue = true ∧ s.bCurrentTouchValue = false then
      let s := touchReleaseEvent s
      { s with bModeSetup := false, bLastTouchValue := s.bCurrentTouchValue }
    else s
  else s

/-- Lines 207–262 of `loop()`: the ambient-light gate.  Below the
threshold the selected mode runs; at or above it the off pattern runs.
`statusOn`/`statusOff` only touch a GPIO, so they change no modelled
state. -/
def dispatchPhase (inp : Input) (s : St) : St :=
  if s.iLightValue < cLightSwitch then runMode s.iLiteMode inp.rand s
  else ledMode0 s

/-- One pass of `loop()` (lines 179–264): tick update, sensor poll and
touch edge handling, then the light-gated mode dispatch.  `autoSave()`
only touches flash, so it changes no modelled state. -/
def loopPass (inp : Input) (s : St) : St :=
  dispatchPhase inp (pollPhase inp (tickUpdate inp.millis s))

/-- The state after `setup()` with `storedMode` read back from flash:
the variable initializers of lines 139–151 with `iLiteMode` replaced by
the persisted value. -/
def bootSt (storedMode : Int) : St :=
  { iLiteMode := storedMode, bModeSetup := false, iPressTime := 0,
    iReleaseTime := 0, iUptime := 0, iFadeTime := 100, iLightValue := 0,
    iTimer := 0, iCycle := 0, iRedMax := 0, iGreenMax := 0, iBlueMax := 0,
    iRed := 0, iGreen := 0, iBlue := 0, bCurrentTouchValue := false,
    bLastTouchValue := false, leds := zeroFrame, nSetups := 0 }

/-- Run a list of scheduler passes. -/
def runList : List Input → St → St
  | [], s => s
  | i :: is, s => runList is (loopPass i s)

/-- All intermediate states of a run (initial state included). -/
def runStates : List Input → St → List St
  | [], s => [s]
  | i :: is, s => s :: runStates is (loopPass i s)

/-- `n` passes of the tick update alone, with the uptime reading advancing
by 1 ms every pass (so every pass increments `iTimer`). -/
def advanceTicks : Nat → St → St
  | 0, s => s
  | n + 1, s => advanceTicks n (tickUpdate (s.iUptime + 1) s)

/-- The cadence predicate `iTimer % cadence == 0` as seen by a consumer,
expressed as a function of the total number `n` of tick increments since
boot: the `unsigned short` counter then holds `n % 2^16`. -/
def cadenceFires (cadence n : Nat) : Bool := n % ushortMod % cadence = 0

/-- A state about to execute `touchReleaseEvent`: the press was recorded
at tick `press`, the release is observed at tick `rel`, and the mode is
`m` (other fields as at boot). -/
def mkRelease (press rel : Nat) (m : Int) : St :=
  { bootSt m with iTimer := rel, iPressTime := press }

/-- The mode reached from `m` by one short-press release (hold time 100,
well under `iShortPressTime`). -/
def shortStep (m : Int) : Int := (touchReleaseEvent (mkRelease 0 100 m)).iLiteMode

/-- A quiet scheduler pass from boot: uptime has advanced to 1 ms, it is
dark, nothing touches the sensor. -/
def passInput0 : Input := { millis := 1, light := 0, touch := false, rand := fun _ => 0 }

/-- An input trace of 1601 passes from boot (uptime advances 1 ms per
pass, darkness throughout).  The touch sensor reads high on passes
3..1600.  Pass 1 runs mode 1's setup, which bumps the tick counter to 100
(the boot value of `iFadeTime`), so ticks thereafter are pass + 99 and
polls land on odd passes: the press is recorded at tick 102 (pass 3) and
the release is observed at tick 1700 (pass 1601) — a hold of 1598 ticks,
inside the unclassified dead zone, so the release changes no mode but
still clears the setup flag, and mode 1's setup then runs a second
time. -/
def c4Inputs : List Input := (List.range 1601).map fun k =>
  { millis := k + 1, light := 0, touch := decide (3 ≤ k + 1 ∧ k + 1 ≤ 1600),
    rand := fun _ => 0 }

/-- Demo mode one tick before its 10-second boundary: mode 10, sub-mode 3
already set up, tick counter 9999 about to advance to 10000. -/
def s7d : St :=
  { bootSt 10 with bModeSetup := true, iCycle := 3, iTimer := 9999,
                   iFadeTime := 2000, iUptime := 4 }

/-- The pass input for `s7d`: uptime advances, darkness, no touch. -/
def i7d : Input := { millis := 5, light := 0, touch := false, rand := fun _ => 7 }

/-- Mode 4 already set up, one tick past a cadence write (tick 7, fade
time 50), with a nonzero frame in the buffer. -/
def s8w : St :=
  { bootSt 4 with bModeSetup := true, iFadeTime := 50, iTimer := 7,
                  leds := List.replicate cLedCount (1, 2, 3) }

/-- A daylight pass that misses the off pattern's cadence boundary:
mode 1 is set up with a lit frame (fade time 50), the stored light
reading is 999 (above `cLightSwitch`), and the tick advances to 8. -/
def s9d : St :=
  { bootSt 1 with bModeSetup := true, iFadeTime := 50, iTimer := 7,
                  iUptime := 7, iLightValue := 999,
                  leds := List.replicate cLedCount (30, 7, 0) }

/-- The pass input for `s9d`: uptime advances to 8 ms, bright daylight,
no touch. -/
def i9d : Input := { millis := 8, light := 999, touch := false, rand := fun _ => 0 }

/-- A daylight pass that hits the off pattern's cadence boundary: as
`s9d` but with the tick advancing to 50 (a multiple of the fade time). -/
def s9w : St :=
  { bootSt 5 with bModeSetup := true, iFadeTime := 50, iTimer := 49,
                  iUptime := 7, iLightValue := 999,
                  leds := List.replicate cLedCount (9, 9, 9) }

/-- The pass input for `s9w`. -/
def i9w : Input := { millis := 8, light := 999, touch := false, rand := fun _ => 0 }

/-! ### Frame lemmas

For each step function: which state fields it leaves alone, split on
whether the mode's one-time setup has already run. -/

theorem tickUpdate_frame (m : Nat) (s : St) :
    (tickUpdate m s).iLiteMode = s.iLiteMode ∧
    (tickUpdate m s).bModeSetup = s.bModeSetup ∧
    (tickUpdate m s).bLastTouchValue = s.bLastTouchValue ∧
    (tickUpdate m s).bCurrentTouchValue = s.bCurrentTouchValue ∧
    (tickUpdate m s).nSetups = s.nSetups ∧
    (tickUpdate m s).iCycle = s.iCycle ∧
    (tickUpdate m s).iLightValue = s.iLightValue ∧
    (tickUpdate m s).iFadeTime = s.iFadeTime ∧
    (tickUpdate m s).leds = s.leds := by
  unfold tickUpdate; split <;> simp

theorem ledMode0_setup_frame (s : St) (hb : s.bModeSetup = true) :
    (ledMode0 s).iTimer = s.iTimer ∧ (ledMode0 s).iCycle = s.iCycle ∧
    (ledMode0 s).bModeSetup = true ∧ (ledMode0 s).iLiteMode = s.iLiteMode ∧
    (ledMode0 s).bLastTouchValue = s.bLastTouchValue ∧
    (ledMode0 s).nSetups = s.nSetups ∧ (ledMode0 s).iFadeTime = s.iFadeTime ∧
    (s.iTimer % s.iFadeTime ≠ 0 → (ledMode0 s).leds = s.leds) ∧
    (s.iTimer % s.iFadeTime = 0 → (ledMode0 s).leds = zeroFrame) := by
  unfold ledMode0; simp [hb]; split <;> simp_all

theorem ledMode0_nosetup_frame (s : St) (hb : s.bModeSetup = false) :
    (ledMode0 s).bModeSetup = true ∧ (ledMode0 s).iLiteMode = s.iLiteMode ∧
    (ledMode0 s).bLastTouchValue = s.bLastTouchValue ∧
    (ledMode0 s).nSetups = s.nSetups + 1 := by
  unfold ledMode0 modeSetup; simp [hb]; split <;> simp

theorem ledMode1_setup_frame (s : St) (hb : s.bModeSetup = true) :
    (ledMode1 s).iTimer = s.iTimer ∧ (ledMode1 s).iCycle = s.iCycle ∧
    (ledMode1 s).bModeSetup = true ∧ (ledMode1 s).iLiteMode = s.iLiteMode ∧
    (ledMode1 s).bLastTouchValue = s.bLastTouchValue ∧
    (ledMode1 s).nSetups = s.nSetups ∧ (ledMode1 s).iFadeTime = s.iFadeTime ∧
    (s.iTimer % s.iFadeTime ≠ 0 → (ledMode1 s).leds = s.leds) := by
  unfold ledMode1; simp [hb]; split <;> simp_all

theorem ledMode1_nosetup_frame (s : St) (hb : s.bModeSetup = false) :
    (ledMode1 s).bModeSetup = true ∧ (ledMode1 s).iLiteMode = s.iLiteMode ∧
    (ledMode1 s).bLastTouchValue = s.bLastTouchValue ∧
    (ledMode1 s).nSetups = s.nSetups + 1 := by
  unfold ledMode1 modeSetup; simp [hb]; split <;> simp

theorem ledMode2_setup_frame (r : Nat → Nat) (s : St) (hb : s.bModeSetup = true) :
    (ledMode2 r s).iTimer = s.iTimer ∧ (ledMode2 r s).iCycle = s.iCycle ∧
    (ledMode2 r s).bModeSetup = true ∧ (ledMode2 r s).iLiteMode = s.iLiteMode ∧
    (ledMode2 r s).bLastTouchValue = s.bLastTouchValue ∧
    (ledMode2 r s).nSetups = s.nSetups ∧ (ledMode2 r s).iFadeTime = s.iFadeTime ∧
    (s.iTimer % s.iFadeTime ≠ 0 → (ledMode2 r s).leds = s.leds) := by
  unfold ledMode2; simp [hb]; split <;> simp_all

theorem ledMode2_nosetup_frame (r : Nat → Nat) (s : St) (hb : s.bModeSetup = false) :
    (ledMode2 r s).bModeSetup = true ∧ (ledMode2 r s).iLiteMode = s.iLiteMode ∧
    (ledMode2 r s).bLastTouchValue = s.bLastTouchValue ∧
    (ledMode2 r s).nSetups = s.nSetups + 1 := by
  unfold ledMode2 modeSetup; simp [hb]; split <;> simp

theorem ledMode3_setup_frame (r : Nat → Nat) (s : St) (hb : s.bModeSetup = true) :
    (ledMode3 r s).iTimer = s.iTimer ∧ (ledMode3 r s).iCycle = s.iCycle ∧
    (ledMode3 r s).bModeSetup = true ∧ (ledMode3 r s).iLiteMode = s.iLiteMode ∧
    (ledMode3 r s).bLastTouchValue = s.bLastTouchValue ∧
    (ledMode3 r s).nSetups = s.nSetups ∧ (ledMode3 r s).iFadeTime = s.iFadeTime ∧
    (s.iTimer % s.iFadeTime ≠ 0 → (ledMode3 r s).leds = s.leds) := by
  unfold ledMode3; simp [hb]; split <;> simp_all

theorem ledMode3_nosetup_frame (r : Nat → Nat) (s : St) (hb : s.bModeSetup = false) :
    (ledMode3 r s).bModeSetup = true ∧ (ledMode3 r s).iLiteMode = s.iLiteMode ∧
    (ledMode3 r s).bLastTouchValue = s.bLastTouchValue ∧
    (ledMode3 r s).nSetups = s.nSetups + 1 := by
  unfold ledMode3 modeSetup; simp [hb]; split <;> simp

theorem ledMode4_setup_frame (s : St) (hb : s.bModeSetup = true) :
    (ledMode4 s).iTimer = s.iTimer ∧ (ledMode4 s).iCycle = s.iCycle ∧
    (ledMode4 s).bModeSetup = true ∧ (ledMode4 s).iLiteMode = s.iLiteMode ∧
    (ledMode4 s).bLastTouchValue = s.bLastTouchValue ∧
    (ledMode4 s).nSetups = s.nSetups ∧ (ledMode4 s).iFadeTime = s.iFadeTime ∧
    (s.iTimer % s.iFadeTime ≠ 0 → (ledMode4 s).leds = s.leds) := by
  unfold ledMode4; simp [hb]; split <;> simp_all

theorem ledMode4_nosetup_frame (s : St) (hb : s.bModeSetup = false) :
    (ledMode4 s).bModeSetup = true ∧ (ledMode4 s).iLiteMode = s.iLiteMode ∧
    (ledMode4 s).bLastTouchValue = s.bLastTouchValue ∧
    (ledMode4 s).nSetups = s.nSetups + 1 := by
  unfold ledMode4 modeSetup; simp [hb]; split <;> simp

theorem ledMode5_setup_frame (s : St) (hb : s.bModeSetup = true) :
    (ledMode5 s).iTimer = s.iTimer ∧ (ledMode5 s).iCycle = s.iCycle ∧
    (ledMode5 s).bModeSetup = true ∧ (ledMode5 s).iLiteMode = s.iLiteMode ∧
    (ledMode5 s).bLastTouchValue = s.bLastTouchValue ∧
    (ledMode5 s).nSetups = s.nSetups ∧ (ledMode5 s).iFadeTime = s.iFadeTime ∧
    (s.iTimer % s.iFadeTime ≠ 0 → (ledMode5 s).leds = s.leds) := by
  unfold ledMode5; simp [hb]; split <;> simp_all

theorem ledMode5_nosetup_frame (s : St) (hb : s.bModeSetup = false) :
    (ledMode5 s).bModeSetup = true ∧ (ledMode5 s).iLiteMode = s.iLiteMode ∧
    (ledMode5 s).bLastTouchValue = s.bLastTouchValue ∧
    (ledMode5 s).nSetups = s.nSetups + 1 := by
  unfold ledMode5 modeSetup; simp [hb]; split <;> simp

theorem ledMode6_setup_frame (s : St) (hb : s.bModeSetup = true) :
    (ledMode6 s).iTimer = s.iTimer ∧ (ledMode6 s).iCycle = s.iCycle ∧
    (ledMode6 s).bModeSetup = true ∧ (ledMode6 s).iLiteMode = s.iLiteMode ∧
    (ledMode6 s).bLastTouchValue = s.bLastTouchValue ∧
    (ledMode6 s).nSetups = s.nSetups ∧ (ledMode6 s).iFadeTime = s.iFadeTime ∧
    (s.iTimer % s.iFadeTime ≠ 0 → (ledMode6 s).leds = s.leds) := by
  unfold ledMode6; simp [hb]; split <;> simp_all

theorem ledMode6_nosetup_frame (s : St) (hb : s.bModeSetup = false) :
    (ledMode6 s).bModeSetup = true ∧ (ledMode6 s).iLiteMode = s.iLiteMode ∧
    (ledMode6 s).bLastTouchValue = s.bLastTouchValue ∧
    (ledMode6 s).nSetups = s.nSetups + 1 := by
  unfold ledMode6 modeSetup; simp [hb]; split <;> simp

theorem ledMode7_setup_frame (s : St) (hb : s.bModeSetup = true) :
    (ledMode7 s).iTimer = s.iTimer ∧ (ledMode7 s).iCycle = s.iCycle ∧
    (ledMode7 s).bModeSetup = true ∧ (ledMode7 s).iLiteMode = s.iLiteMode ∧
    (ledMode7 s).bLastTouchValue = s.bLastTouchValue ∧
    (ledMode7 s).nSetups = s.nSetups ∧ (ledMode7 s).iFadeTime = s.iFadeTime ∧
    (s.iTimer % s.iFadeTime ≠ 0 → (ledMode7 s).leds = s.leds) := by
  unfold ledMode7; simp [hb]; split <;> simp_all

theorem ledMode7_nosetup_frame (s : St) (hb : s.bModeSetup = false) :
    (ledMode7 s).bModeSetup = true ∧ (ledMode7 s).iLiteMode = s.iLiteMode ∧
    (ledMode7 s).bLastTouchValue = s.bLastTouchValue ∧
    (ledMode7 s).nSetups = s.nSetups + 1 := by
  unfold ledMode7 modeSetup; simp [hb]; split <;> simp

theorem ledMode8_setup_frame (s : St) (hb : s.bModeSetup = true) :
    (ledMode8 s).iTimer = s.iTimer ∧ (ledMode8 s).iCycle = s.iCycle ∧
    (ledMode8 s).bModeSetup = true ∧ (ledMode8 s).iLiteMode = s.iLiteMode ∧
    (ledMode8 s).bLastTouchValue = s.bLastTouchValue ∧
    (ledMode8 s).nSetups = s.nSetups ∧ (ledMode8 s).iFadeTime = s.iFadeTime ∧
    (s.iTimer % s.iFadeTime ≠ 0 → (ledMode8 s).leds = s.leds) := by
  unfold ledMode8; simp [hb]; split <;> simp_all

theorem ledMode8_nosetup_frame (s : St) (hb : s.bModeSetup = false) :
    (ledMode8 s).bModeSetup = true ∧ (ledMode8 s).iLiteMode = s.iLiteMode ∧
    (ledMode8 s).bLastTouchValue = s.bLastTouchValue ∧
    (ledMode8 s).nSetups = s.nSetups + 1 := by
  unfold ledMode8 modeSetup; simp [hb]; split <;> simp

theorem ledMode9_setup_frame (s : St) (hb : s.bModeSetup = true) :
    (ledMode9 s).iTimer = s.iTimer ∧ (ledMode9 s).iCycle = s.iCycle ∧
    (ledMode9 s).bModeSetup = true ∧ (ledMode9 s).iLiteMode = s.iLiteMode ∧
    (ledMode9 s).bLastTouchValue = s.bLastTouchValue ∧
    (ledMode9 s).nSetups = s.nSetups ∧ (ledMode9 s).iFadeTime = s.iFadeTime ∧
    (s.iTimer % s.iFadeTime ≠ 0 → (ledMode9 s).leds = s.leds) := by
  unfold ledMode9; simp [hb]; split <;> simp_all

theorem ledMode9_nosetup_frame (s : St) (hb : s.bModeSetup = false) :
    (ledMode9 s).bModeSetup = true ∧ (ledMode9 s).iLiteMode = s.iLiteMode ∧
    (ledMode9 s).bLastTouchValue = s.bLastTouchValue ∧
    (ledMode9 s).nSetups = s.nSetups + 1 := by
  unfold ledMode9 modeSetup; simp [hb]; split <;> simp

/-! ### Reductions of the mode dispatch at concrete mode indices -/

theorem runMode_zero (r : Nat → Nat) (s : St) : runMode 0 r s = ledMode0 s := by
  norm_num [runMode]

theorem runMode_one (r : Nat → Nat) (s : St) : runMode 1 r s = ledMode1 s := by
  norm_num [runMode]

theorem runMode_two (r : Nat → Nat) (s : St) : runMode 2 r s = ledMode2 r s := by
  norm_num [runMode]

theorem runMode_three (r : Nat → Nat) (s : St) : runMode 3 r s = ledMode3 r s := by
  norm_num [runMode]

theorem runMode_four (r : Nat → Nat) (s : St) : runMode 4 r s = ledMode4 s := by
  norm_num [runMode]

theorem runMode_five (r : Nat → Nat) (s : St) : runMode 5 r s = ledMode5 s := by
  norm_num [runMode]

theorem runMode_six (r : Nat → Nat) (s : St) : runMode 6 r s = ledMode6 s := by
  norm_num [runMode]

theorem runMode_seven (r : Nat → Nat) (s : St) : runMode 7 r s = ledMode7 s := by
  norm_num [runMode]

theorem runMode_eight (r : Nat → Nat) (s : St) : runMode 8 r s = ledMode8 s := by
  norm_num [runMode]

theorem runMode_nine (r : Nat → Nat) (s : St) : runMode 9 r s = ledMode9 s := by
  norm_num [runMode]

theorem runMode_ten (r : Nat → Nat) (s : St) : runMode 10 r s = ledMode10 r s := by
  norm_num [runMode]

/-- For any animation mode 0..9 whose setup has already run, the step
leaves the scheduler-relevant fields alone, and leaves the frame buffer
alone off the cadence boundary. -/
theorem runMode_setup_frame (m : Int) (r : Nat → Nat) (s : St)
    (h0 : 0 ≤ m) (h9 : m ≤ 9) (hb : s.bModeSetup = true) :
    (runMode m r s).iTimer = s.iTimer ∧ (runMode m r s).iCycle = s.iCycle ∧
    (runMode m r s).bModeSetup = true ∧ (runMode m r s).iLiteMode = s.iLiteMode ∧
    (runMode m r s).bLastTouchValue = s.bLastTouchValue ∧
    (runMode m r s).nSetups = s.nSetups ∧ (runMode m r s).iFadeTime = s.iFadeTime ∧
    (s.iTimer % s.iFadeTime ≠ 0 → (runMode m r s).leds = s.leds) := by
  interval_cases m
  · obtain ⟨a, b, c, d, e, f, g, h, -⟩ := ledMode0_setup_frame s hb
    rw [runMode_zero]; exact ⟨a, b, c, d, e, f, g, h⟩
  · rw [runMode_one]; exact ledMode1_setup_frame s hb
  · rw [runMode_two]; exact ledMode2_setup_frame r s hb
  · rw [runMode_three]; exact ledMode3_setup_frame r s hb
  · rw [runMode_four]; exact ledMode4_setup_frame s hb
  · rw [runMode_five]; exact ledMode5_setup_frame s hb
  · rw [runMode_six]; exact ledMode6_setup_frame s hb
  · rw [runMode_seven]; exact ledMode7_setup_frame s hb
  · rw [runMode_eight]; exact ledMode8_setup_frame s hb
  · rw [runMode_nine]; exact ledMode9_setup_frame s hb

/-- For any animation mode 0..9 whose setup has not yet run, the step
runs `modeSetup` exactly once, sets the flag, and does not touch the mode
index or the touch edge state. -/
theorem runMode_nosetup_frame (m : Int) (r : Nat → Nat) (s : St)
    (h0 : 0 ≤ m) (h9 : m ≤ 9) (hb : s.bModeSetup = false) :
    (runMode m r s).bModeSetup = true ∧ (runMode m r s).iLiteMode = s.iLiteMode ∧
    (runMode m r s).bLastTouchValue = s.bLastTouchValue ∧
    (runMode m r s).nSetups = s.nSetups + 1 := by
  interval_cases m
  · rw [runMode_zero]; exact ledMode0_nosetup_frame s hb
  · rw [runMode_one]; exact ledMode1_nosetup_frame s hb
  · rw [runMode_two]; exact ledMode2_nosetup_frame r s hb
  · rw [runMode_three]; exact ledMode3_nosetup_frame r s hb
  · rw [runMode_four]; exact ledMode4_nosetup_frame s hb
  · rw [runMode_five]; exact ledMode5_nosetup_frame s hb
  · rw [runMode_six]; exact ledMode6_nosetup_frame s hb
  · rw [runMode_seven]; exact ledMode7_nosetup_frame s hb
  · rw [runMode_eight]; exact ledMode8_nosetup_frame s hb
  · rw [runMode_nine]; exact ledMode9_nosetup_frame s hb

/-- With no touch contact (current sample low, last polled sample low),
the poll phase performs no edge action: it can only refresh the stored
light reading and the current-sample latch. -/
theorem pollPhase_frame (inp : Input) (s : St)
    (hlast : s.bLastTouchValue = false) (ht : inp.touch = false) :
    (pollPhase inp s).iLiteMode = s.iLiteMode ∧
    (pollPhase inp s).bModeSetup = s.bModeSetup ∧
    (pollPhase inp s).bLastTouchValue = false ∧
    (pollPhase inp s).nSetups = s.nSetups ∧
    (pollPhase inp s).iCycle = s.iCycle ∧
    (pollPhase inp s).iTimer = s.iTimer ∧
    (pollPhase inp s).iFadeTime = s.iFadeTime ∧
    (pollPhase inp s).leds = s.leds ∧
    ((pollPhase inp s).iLightValue = s.iLightValue ∨
     (pollPhase inp s).iLightValue = inp.light % ushortMod) := by
  unfold pollPhase
  split
  · simp [hlast, ht]
  · simp [hlast]

/-- Combined dispatch frame for modes 0..9: whichever side of the
ambient-light gate runs, the mode index and edge state are untouched, the
setup flag ends true, and `modeSetup` ran exactly once iff the flag
started false. -/
theorem dispatchPhase_frame (inp : Input) (s : St)
    (h0 : 0 ≤ s.iLiteMode) (h9 : s.iLiteMode ≤ 9) :
    (dispatchPhase inp s).iLiteMode = s.iLiteMode ∧
    (dispatchPhase inp s).bLastTouchValue = s.bLastTouchValue ∧
    (dispatchPhase inp s).bModeSetup = true ∧
    (dispatchPhase inp s).nSetups =
      s.nSetups + (if s.bModeSetup = true then 0 else 1) := by
  unfold dispatchPhase
  rcases hb : s.bModeSetup with _ | _
  · split
    · obtain ⟨c, m, l, n⟩ := runMode_nosetup_frame s.iLiteMode inp.rand s h0 h9 hb
      exact ⟨m, l, c, by rw [n]; simp⟩
    · obtain ⟨c, m, l, n⟩ := ledMode0_nosetup_frame s hb
      exact ⟨m, l, c, by rw [n]; simp⟩
  · split
    · obtain ⟨-, -, c, m, l, n, -, -⟩ := runMode_setup_frame s.iLiteMode inp.rand s h0 h9 hb
      exact ⟨m, l, c, by rw [n]; simp⟩
    · obtain ⟨-, -, c, m, l, n, -, -, -⟩ := ledMode0_setup_frame s hb
      exact ⟨m, l, c, by rw [n]; simp⟩

/-- One whole scheduler pass with no touch contact and an ordinary mode
0..9: the mode index is unchanged, the edge state stays idle, the setup
flag ends true, and `modeSetup` ran exactly once iff the flag started
false. -/
theorem loopPass_frame (inp : Input) (s : St)
    (h0 : 0 ≤ s.iLiteMode) (h9 : s.iLiteMode ≤ 9)
    (hlast : s.bLastTouchValue = false) (ht : inp.touch = false) :
    (loopPass inp s).iLiteMode = s.iLiteMode ∧
    (loopPass inp s).bLastTouchValue = false ∧
    (loopPass inp s).bModeSetup = true ∧
    (loopPass inp s).nSetups =
      s.nSetups + (if s.bModeSetup = true then 0 else 1) := by
  unfold loopPass
  obtain ⟨t1, t2, t3, -, t5, t6, -, t8, -⟩ := tickUpdate_frame inp.millis s
  obtain ⟨p1, p2, p3, p4, -, -, -, -, -⟩ :=
    pollPhase_frame inp (tickUpdate inp.millis s) (by rw [t3, hlast]) ht
  obtain ⟨d1, d2, d3, d4⟩ := dispatchPhase_frame inp
    (pollPhase inp (tickUpdate inp.millis s))
    (by rw [p1, t1]; exact h0) (by rw [p1, t1]; exact h9)
  refine ⟨by rw [d1, p1, t1], by rw [d2, p3], d3, ?_⟩
  rw [d4, p4, t5, p2, t2]

/-- The demo sub-mode dispatch, on an already-set-up sub-mode with a
cycle index in range, does not touch the tick counter, the cycle index,
the setup flag or the mode index. -/
theorem demoDispatch_setup_frame (c : Nat) (r : Nat → Nat) (s : St)
    (h1 : 1 ≤ c) (h9 : c ≤ 9) (hb : s.bModeSetup = true) :
    (demoDispatch c r s).iTimer = s.iTimer ∧
    (demoDispatch c r s).iCycle = s.iCycle ∧
    (demoDispatch c r s).bModeSetup = true ∧
    (demoDispatch c r s).iLiteMode = s.iLiteMode := by
  interval_cases c
  · obtain ⟨a, b, d, e, -⟩ := ledMode1_setup_frame s hb
    norm_num [demoDispatch]; exact ⟨a, b, d, e⟩
  · obtain ⟨a, b, d, e, -⟩ := ledMode2_setup_frame r s hb
    norm_num [demoDispatch]; exact ⟨a, b, d, e⟩
  · obtain ⟨a, b, d, e, -⟩ := ledMode3_setup_frame r s hb
    norm_num [demoDispatch]; exact ⟨a, b, d, e⟩
  · obtain ⟨a, b, d, e, -⟩ := ledMode4_setup_frame s hb
    norm_num [demoDispatch]; exact ⟨a, b, d, e⟩
  · obtain ⟨a, b, d, e, -⟩ := ledMode5_setup_frame s hb
    norm_num [demoDispatch]; exact ⟨a, b, d, e⟩
  · obtain ⟨a, b, d, e, -⟩ := ledMode6_setup_frame s hb
    norm_num [demoDispatch]; exact ⟨a, b, d, e⟩
  · obtain ⟨a, b, d, e, -⟩ := ledMode7_setup_frame s hb
    norm_num [demoDispatch]; exact ⟨a, b, d, e⟩
  · obtain ⟨a, b, d, e, -⟩ := ledMode8_setup_frame s hb
    norm_num [demoDispatch]; exact ⟨a, b, d, e⟩
  · obtain ⟨a, b, d, e, -⟩ := ledMode9_setup_frame s hb
    norm_num [demoDispatch]; exact ⟨a, b, d, e⟩

/-- When demo mode hits its 10-second boundary (`iTimer % iDemoModeTime
== 0`, `iTimer != 0`) with an in-range, already-set-up sub-mode, the pass
advances the cycle index by exactly one and clears the setup flag. -/
theorem ledMode10_advance (r : Nat → Nat) (s : St) (hb : s.bModeSetup = true)
    (hc1 : 1 ≤ s.iCycle) (hc9 : s.iCycle ≤ 9)
    (hfire : s.iTimer % iDemoModeTime = 0) (hnz : s.iTimer ≠ 0) :
    (ledMode10 r s).iCycle = s.iCycle + 1 ∧
    (ledMode10 r s).bModeSetup = false ∧
    (ledMode10 r s).iLiteMode = s.iLiteMode := by
  unfold ledMode10
  have hcl : demoClamp s.iCycle = s.iCycle := by
    unfold demoClamp; rw [if_neg]; omega
  rw [hcl]
  have hs : ({ s with iCycle := s.iCycle } : St) = s := rfl
  rw [hs]
  obtain ⟨e1, e2, e3, e4⟩ := demoDispatch_setup_frame s.iCycle r s hc1 hc9 hb
  rw [if_pos (by rw [e1]; exact ⟨hfire, hnz⟩)]
  refine ⟨?_, rfl, by simpa using e4⟩
  simp only [e2]
  have : s.iCycle + 1 < byteMod := by unfold byteMod; omega
  simpa using Nat.mod_eq_of_lt this

/-! ### Claim theorems -/

/-- Claim C1.  The spec says a press at tick 0 released at tick 8000 is
an extra-long release that enters demo mode (`ModeIndex = 10`) whatever
the prior mode.  The code disagrees: `touchReleaseEvent` compares the
8000-tick hold against `iDemoModeTime = 10000` (not the defined-but-unused
`iDemoPressTime = 7000`), so the hold falls into the long-press branch and
the mode is forced to 0 (off), whatever the prior mode `m`. -/
theorem C1_press0_release8000 (m : Int) :
    (touchReleaseEvent (mkRelease 0 8000 m)).iLiteMode = 0 := by
  norm_num [touchReleaseEvent, mkRelease, bootSt, ulongMod, iDemoModeTime,
    iLongPressTime, iShortPressTime]

/-- Claim C2 (corrected).  The tick-update step at the top of each
scheduler pass (`if (iUptime < millis()) { iUptime = millis(); iTimer++; }`)
changes the tick counter by exactly 0 or 1, modulo its 16-bit storage
width.  (A whole pass need not: `modeSetup` overwrites `iTimer` with the
previous `iFadeTime` — see the counterexample.) -/
theorem C2_tickUpdate_step (millisVal : Nat) (s : St) :
    (tickUpdate millisVal s).iTimer = s.iTimer ∨
    (tickUpdate millisVal s).iTimer = (s.iTimer + 1) % ushortMod := by
  unfold tickUpdate; split
  · right; rfl
  · left; rfl

/-- Claim C2, counterexample.  On the very first scheduler pass from boot
(stored mode 1), the tick counter jumps from 0 to 100: the tick update
increments it to 1, then mode 1's `modeSetup` overwrites it with the boot
value of `iFadeTime` (100).  The change is neither 0 nor 1 and is not a
2^16 wraparound, refuting the per-pass 0-or-1 invariant. -/
theorem C2_counterexample :
    (bootSt 1).iTimer = 0 ∧ (loopPass passInput0 (bootSt 1)).iTimer = 100 ∧
    ¬ ((loopPass passInput0 (bootSt 1)).iTimer = (bootSt 1).iTimer ∨
       (loopPass passInput0 (bootSt 1)).iTimer = ((bootSt 1).iTimer + 1) % ushortMod) := by
  decide

/-- Claim C3.  Boundary behaviour of the release classification, starting
from mode 5 with the press at tick 0: a 1499-tick hold is a short release
(mode 6); holds of 1500 and 3000 ticks produce no event (the code's dead
zone is the closed interval [1500, 3000], though the claim says a hold
exactly at `longThreshold = 3000` is a long release); a 3001-tick hold is
a long release (mode 0); holds of 7000 and even 10000 ticks are still
long releases (mode 0), though the claim says holds at or above
`extraLongThreshold = 7000` are extra-long; only a hold strictly greater
than `iDemoModeTime = 10000` enters demo mode (mode 10). -/
theorem C3_boundary_classification :
    (touchReleaseEvent (mkRelease 0 1499 5)).iLiteMode = 6 ∧
    (touchReleaseEvent (mkRelease 0 1500 5)).iLiteMode = 5 ∧
    (touchReleaseEvent (mkRelease 0 3000 5)).iLiteMode = 5 ∧
    (touchReleaseEvent (mkRelease 0 3001 5)).iLiteMode = 0 ∧
    (touchReleaseEvent (mkRelease 0 7000 5)).iLiteMode = 0 ∧
    (touchReleaseEvent (mkRelease 0 10000 5)).iLiteMode = 0 ∧
    (touchReleaseEvent (mkRelease 0 10001 5)).iLiteMode = 10 := by
  decide

/-- Claim C5.  A short release advances the mode cyclically:
for every mode in 0..9, one short release maps mode `m` to
`(m + 1) mod 10` (wrapping to 0, off, after mode 9); and ten short
releases starting from mode 0 return to mode 0. -/
theorem C5_short_release_cycle :
    (∀ m : Int, 0 ≤ m → m ≤ 9 → shortStep m = (m + 1) % 10) ∧
    shortStep^[10] 0 = 0 := by
  refine ⟨?_, by decide⟩
  intro m h0 h9
  interval_cases m <;> decide

/-- Claim C5, witness: the wrap step at mode 9. -/
theorem C5_witness : shortStep 9 = (9 + 1) % 10 :=
  C5_short_release_cycle.1 9 (by norm_num) (by norm_num)

/-- Claim C10.  If the 16-bit tick counter wraps between the press and
the release (so the release tick is numerically below the press tick),
the `unsigned long` subtraction `iReleaseTime - iPressTime` wraps to a
value near 2^32, which exceeds every threshold, so the release always
enters demo mode (`iLiteMode = 10`) whatever the prior mode. -/
theorem C10_wrap_release_demo (press rel : Nat) (m : Int)
    (hp : press < ushortMod) (hr : rel < press) :
    (touchReleaseEvent (mkRelease press rel m)).iLiteMode = 10 := by
  have hhold : (rel + ulongMod - press % ulongMod) % ulongMod > iDemoModeTime := by
    unfold ulongMod iDemoModeTime
    unfold ushortMod at hp
    omega
  simp only [touchReleaseEvent, mkRelease, bootSt]
  rw [if_pos hhold]

/-- Claim C10, witness: press recorded at tick 60000, release observed at
tick 5 after the counter wrapped. -/
theorem C10_witness : (touchReleaseEvent (mkRelease 60000 5 3)).iLiteMode = 10 :=
  C10_wrap_release_demo 60000 5 3 (by norm_num [ushortMod]) (by norm_num)

/-- Claim C6 (corrected).  A cadence check `iTimer % cadence == 0` on the
16-bit tick counter fires exactly at every `cadence`-th tick increment —
across wraparound included — precisely when the cadence divides the
counter's modulus 2^16 (`n` counts tick increments since boot, so the
counter holds `n % 2^16`). -/
theorem C6_cadence_mod_divisor (c n : Nat) (hdvd : c ∣ ushortMod) :
    cadenceFires c n = true ↔ n % c = 0 := by
  unfold cadenceFires
  rw [Nat.mod_mod_of_dvd n hdvd]
  exact decide_eq_true_iff

/-- Claim C6, witness: the polling cadence 2 (which divides 2^16) at the
65538th tick increment. -/
theorem C6_witness : cadenceFires 2 65538 = true ↔ 65538 % 2 = 0 :=
  C6_cadence_mod_divisor 2 65538 (by norm_num [ushortMod])

/-- Claim C6, counterexample.  The cadence 10000 (the demo-mode interval,
well under the counter's period 2^16) does not fire at 10000-tick
intervals across the wraparound: it fires at tick increment 60000, stays
silent for the next 5535 increments, and fires again at increment 65536
(where the counter has wrapped to 0) — a gap of 5536 ticks, not
10000. -/
theorem C6_counterexample :
    10000 ≤ ushortMod ∧
    cadenceFires 10000 60000 = true ∧
    (∀ k, k < 5535 → cadenceFires 10000 (60001 + k) = false) ∧
    cadenceFires 10000 65536 = true ∧
    65536 - 60000 = 5536 ∧ 5536 ≠ 10000 := by
  refine ⟨by norm_num [ushortMod], by decide, ?_, by decide, by norm_num, by norm_num⟩
  intro k hk
  simp only [cadenceFires, ushortMod, decide_eq_false_iff_not]
  rw [Nat.mod_eq_of_lt (show 60001 + k < 65536 by omega)]
  omega

/-- Claim C8.  For any animation mode 0..9 whose setup has already run,
a scheduler pass that misses the cadence boundary
(`iTimer % iFadeTime != 0`) leaves the LED frame buffer exactly as it
was: no pixel is cleared or overwritten. -/
theorem C8_offcadence_noop (m : Int) (r : Nat → Nat) (s : St)
    (h0 : 0 ≤ m) (h9 : m ≤ 9) (hb : s.bModeSetup = true)
    (hcad : s.iTimer % s.iFadeTime ≠ 0) :
    (runMode m r s).leds = s.leds :=
  (runMode_setup_frame m r s h0 h9 hb).2.2.2.2.2.2.2 hcad

/-- Claim C8, witness: mode 4 at tick 7 with fade time 50 keeps its
frame. -/
theorem C8_witness : (runMode 4 (fun _ => 0) s8w).leds = s8w.leds :=
  C8_offcadence_noop 4 (fun _ => 0) s8w (by norm_num) (by norm_num) rfl (by decide)

/-- Claim C9, counterexample.  A daylight pass (stored light reading 999,
at or above `cLightSwitch = 255`) does not force the LED output to
all-zero on that pass: with mode 1's frame lit and the off pattern
missing its cadence boundary (tick 8, fade time 50), the buffer — and
hence the strip, which is not even refreshed — keeps mode 1's colours,
and the mode index stays 1. -/
theorem C9_counterexample :
    cLightSwitch ≤ s9d.iLightValue ∧ cLightSwitch ≤ i9d.light ∧
    (loopPass i9d s9d).leds = s9d.leds ∧ s9d.leds ≠ zeroFrame ∧
    (loopPass i9d s9d).iLiteMode = s9d.iLiteMode := by
  decide

/-- Claim C9 (corrected).  On a daylight pass (stored and freshly polled
light readings at or above `cLightSwitch`) with no touch release in the
pass, the off pattern is dispatched regardless of the stored mode and the
mode index is not mutated; the buffer is forced to all-zero once the off
pattern's cadence boundary is hit (`iTimer % iFadeTime == 0`, here under
an already-true setup flag). -/
theorem C9_day_off (inp : Input) (s : St)
    (hl1 : cLightSwitch ≤ s.iLightValue)
    (hl2 : cLightSwitch ≤ inp.light % ushortMod)
    (hlast : s.bLastTouchValue = false) (ht : inp.touch = false)
    (hb : s.bModeSetup = true)
    (hcad : (tickUpdate inp.millis s).iTimer % s.iFadeTime = 0) :
    (loopPass inp s).leds = zeroFrame ∧
    (loopPass inp s).iLiteMode = s.iLiteMode := by
  unfold loopPass
  obtain ⟨t1, t2, t3, -, -, -, t7, t8, -⟩ := tickUpdate_frame inp.millis s
  obtain ⟨p1, p2, -, -, -, p6, p7, -, p9⟩ :=
    pollPhase_frame inp (tickUpdate inp.millis s) (by rw [t3, hlast]) ht
  set p := pollPhase inp (tickUpdate inp.millis s) with hpdef
  have hpl : ¬ p.iLightValue < cLightSwitch := by
    rcases p9 with h | h
    · rw [h, t7]; omega
    · rw [h]; omega
  unfold dispatchPhase
  rw [if_neg hpl]
  obtain ⟨-, -, -, z4, -, -, -, -, z9⟩ := ledMode0_setup_frame p (by rw [p2, t2, hb])
  refine ⟨z9 ?_, by rw [z4, p1, t1]⟩
  rw [p6, p7, t8]
  exact hcad

/-- Claim C9, witness: daylight pass at tick 50 (cadence hit) zeroes the
frame and keeps mode 5. -/
theorem C9_witness :
    (loopPass i9w s9w).leds = zeroFrame ∧ (loopPass i9w s9w).iLiteMode = s9w.iLiteMode :=
  C9_day_off i9w s9w (by decide) (by decide) rfl rfl rfl (by decide)

/-- Claim C7.  While demo mode (mode 10) is active, a nighttime pass with
no touch activity whose tick update lands on the 10-second boundary
(`iTimer % iDemoModeTime == 0`, `iTimer != 0`) advances the demo cycle
index by exactly one and clears the setup flag, so the newly selected
sub-program re-initializes; the mode index itself stays 10.  The wrap
from the last real program (9) back to the first happens through the
entry clamp on the next pass: `demoClamp 10 = 1`. -/
theorem C7_demo_cycle :
    (∀ (inp : Input) (s : St), s.iLiteMode = 10 → s.bModeSetup = true →
      1 ≤ s.iCycle → s.iCycle ≤ 9 → s.bLastTouchValue = false →
      inp.touch = false → s.iLightValue < cLightSwitch →
      inp.light % ushortMod < cLightSwitch →
      (tickUpdate inp.millis s).iTimer % iDemoModeTime = 0 →
      (tickUpdate inp.millis s).iTimer ≠ 0 →
      (loopPass inp s).iCycle = s.iCycle + 1 ∧
      (loopPass inp s).bModeSetup = false ∧
      (loopPass inp s).iLiteMode = s.iLiteMode) ∧
    demoClamp 10 = 1 := by
  refine ⟨?_, by decide⟩
  intro inp s hm hb hc1 hc9 hlast ht hl1 hl2 hfire hnz
  unfold loopPass
  obtain ⟨t1, t2, t3, -, -, t6, t7, -, -⟩ := tickUpdate_frame inp.millis s
  obtain ⟨p1, p2, -, -, p5, p6, -, -, p9⟩ :=
    pollPhase_frame inp (tickUpdate inp.millis s) (by rw [t3, hlast]) ht
  set p := pollPhase inp (tickUpdate inp.millis s) with hpdef
  have hpl : p.iLightValue < cLightSwitch := by
    rcases p9 with h | h
    · rw [h, t7]; exact hl1
    · rw [h]; exact hl2
  unfold dispatchPhase
  rw [if_pos hpl, p1, t1, hm, runMode_ten]
  obtain ⟨a1, a2, a3⟩ := ledMode10_advance inp.rand p (by rw [p2, t2, hb])
    (by rw [p5, t6]; exact hc1) (by rw [p5, t6]; exact hc9)
    (by rw [p6]; exact hfire) (by rw [p6]; exact hnz)
  exact ⟨by rw [a1, p5, t6], a2, by rw [a3, p1, t1, hm]⟩

/-- Claim C7, witness: demo pass crossing tick 10000 with sub-mode 3
active advances the cycle index to 4, clears the flag, and stays in
mode 10. -/
theorem C7_witness :
    (loopPass i7d s7d).iCycle = s7d.iCycle + 1 ∧
    (loopPass i7d s7d).bModeSetup = false ∧
    (loopPass i7d s7d).iLiteMode = s7d.iLiteMode :=
  C7_demo_cycle.1 i7d s7d rfl rfl (by decide) (by decide) rfl rfl (by decide)
    (by decide) (by decide) (by decide)

/-- Claim C4 (corrected).  Across any sequence of passes with no touch
contact and an ordinary mode 0..9, the mode index never changes and
`modeSetup` runs exactly once per activation: once if the setup flag
starts cleared and the sequence is nonempty, and never again once the
flag is set.  (A touch release — even one in the unclassified dead zone,
which changes no mode — clears the flag and makes setup run again; see
the counterexample.) -/
theorem C4_setup_once (inputs : List Input) (s : St)
    (h0 : 0 ≤ s.iLiteMode) (h9 : s.iLiteMode ≤ 9)
    (hlast : s.bLastTouchValue = false)
    (htouch : ∀ i ∈ inputs, i.touch = false) :
    (runList inputs s).iLiteMode = s.iLiteMode ∧
    (runList inputs s).nSetups =
      s.nSetups + (if s.bModeSetup = true then 0 else min 1 inputs.length) := by
  induction inputs generalizing s with
  | nil => simp [runList]
  | cons i is ih =>
      have hti : i.touch = false := htouch i (by simp)
      obtain ⟨hm, hl, hbs, hns⟩ := loopPass_frame i s h0 h9 hlast hti
      have hrest := ih (loopPass i s) (by rw [hm]; exact h0) (by rw [hm]; exact h9)
        hl (fun j hj => htouch j (by simp [hj]))
      rw [runList]
      refine ⟨by rw [hrest.1, hm], ?_⟩
      rw [hrest.2, hns, hbs]
      rcases s.bModeSetup with _ | _ <;> simp

set_option maxRecDepth 20000 in
/-- Claim C4, counterexample.  Along the 1601-pass trace `c4Inputs` the
mode index is 1 at boot and after every pass — it never changes — yet
`modeSetup` runs twice: once on pass 1 (mode 1's activation) and once on
pass 1601, because the dead-zone release (hold 1598 ticks) cleared the
setup flag without changing the mode.  This refutes "setup is invoked
exactly once across any sequence of passes with no ModeIndex change". -/
theorem C4_counterexample :
    ((runStates c4Inputs (bootSt 1)).all fun st => st.iLiteMode == 1) = true ∧
    (bootSt 1).nSetups = 0 ∧
    (runList c4Inputs (bootSt 1)).nSetups = 2 := by
  decide

/-- Claim C4, witness: one quiet pass from boot (flag cleared, mode 1)
keeps the mode and runs setup exactly once. -/
theorem C4_witness :
    (runList [passInput0] (bootSt 1)).iLiteMode = (bootSt 1).iLiteMode ∧
    (runList [passInput0] (bootSt 1)).nSetups =
      (bootSt 1).nSetups +
        (if (bootSt 1).bModeSetup = true then 0
         else min 1 ([passInput0] : List Input).length) :=
  C4_setup_once [passInput0] (bootSt 1) (by decide) (by decide) rfl
    (fun i hi => by rw [List.mem_singleton.mp hi]; rfl)

end ChristmasLED
